import Mathlib

/-!
Shallow embedding of the YouTube-Trending-Visualizer Flask app
(src/flask_youtube_viz_app.py) for checking its natural-language
specification.

The app keeps a single in-memory table (a pandas DataFrame) loaded at
startup and serves three routes (index, visualize, plot_image).  We model
the DataFrame as a list of rows over a fixed universe of columns, cell
values as an inductive type distinguishing numeric, string and missing
(NaN) cells, and each Flask handler as a pure state-passing function from
the process-wide dataset and a request to a response.  External libraries
(pandas CSV parsing, zipfile) are modelled at their call boundary: the
parser and unzipper are parameters, while everything the repository itself
computes (dispatch, encoding fallback order, filtering, coercion,
grouping, sampling arithmetic) is translated from the source.
-/

/-- A cell of the table: a numeric value (rationals stand in for the
numeric dtypes), a string, or a missing value (NaN). -/
inductive Val where
  | num (q : Rat)
  | str (s : String)
  | na
deriving DecidableEq

/-- The columns the program ever touches by name. -/
inductive Col where
  | category_name
  | categoryId
  | view_count
  | likes
  | dislikes
  | comment_count
  | like_ratio
  | publish_hour
deriving DecidableEq

/-- One row of the table: a cell for each column the program touches. -/
structure Row where
  category_name : Val
  categoryId : Val
  view_count : Val
  likes : Val
  dislikes : Val
  comment_count : Val
  like_ratio : Val
  publish_hour : Val
deriving DecidableEq

/-- Read the cell of a row at a column. -/
def Row.get (r : Row) : Col → Val
  | .category_name => r.category_name
  | .categoryId => r.categoryId
  | .view_count => r.view_count
  | .likes => r.likes
  | .dislikes => r.dislikes
  | .comment_count => r.comment_count
  | .like_ratio => r.like_ratio
  | .publish_hour => r.publish_hour

/-- Replace the cell of a row at a column. -/
def Row.set (r : Row) (c : Col) (v : Val) : Row :=
  match c with
  | .category_name => { r with category_name := v }
  | .categoryId => { r with categoryId := v }
  | .view_count => { r with view_count := v }
  | .likes => { r with likes := v }
  | .dislikes => { r with dislikes := v }
  | .comment_count => { r with comment_count := v }
  | .like_ratio => { r with like_ratio := v }
  | .publish_hour => { r with publish_hour := v }

/-- The in-memory table: the set of columns actually present in the
loaded file (cells of absent columns are irrelevant) and the rows. -/
structure Dataset where
  cols : List Col
  rows : List Row
deriving DecidableEq

/-- Python exceptions that can escape the code we model. -/
inductive PyErr where
  | valueError
  | keyError
  | fileNotFound
  | badZip
  | parseFail
deriving DecidableEq

instance {ε α : Type} [DecidableEq ε] [DecidableEq α] : DecidableEq (Except ε α) :=
  fun x y =>
    match x, y with
    | .ok a, .ok b =>
      if h : a = b then .isTrue (by rw [h])
      else .isFalse (fun he => h (Except.ok.inj he))
    | .error a, .error b =>
      if h : a = b then .isTrue (by rw [h])
      else .isFalse (fun he => h (Except.error.inj he))
    | .ok _, .error _ => .isFalse (fun he => Except.noConfusion he)
    | .error _, .ok _ => .isFalse (fun he => Except.noConfusion he)

/-- Digits of a decimal literal folded to a natural number. -/
def digitsToNat (l : List Char) : Nat :=
  l.foldl (fun n c => n * 10 + (c.toNat - 48)) 0

/-- Surrounding-whitespace stripping, as both int() and to_numeric
tolerate whitespace around the literal. -/
def stripSpaces (l : List Char) : List Char :=
  ((l.dropWhile Char.isWhitespace).reverse.dropWhile Char.isWhitespace).reverse

/-- Model of the Python built-in int() applied to a string: optional
surrounding whitespace, an optional sign, then one or more decimal
digits; anything else raises ValueError (modelled as none). -/
def pyInt? (s : String) : Option Int :=
  match stripSpaces s.toList with
  | [] => none
  | c0 :: rest0 =>
    let body : List Char :=
      if c0 = '-' then rest0 else if c0 = '+' then rest0 else c0 :: rest0
    if body ≠ [] ∧ body.all Char.isDigit then
      if c0 = '-' then some (-(digitsToNat body : Int))
      else some (digitsToNat body : Int)
    else none

/-- Model of the numeric-literal parse used by pandas to_numeric: an
optional sign, an integer part, an optional fractional part.  (Exponent
notation is omitted from the model; no claim depends on it.) -/
def parseDecimal? (s : String) : Option Rat :=
  match stripSpaces s.toList with
  | [] => none
  | c0 :: rest0 =>
    let signed : Nat → Int := fun n => if c0 = '-' then -(n : Int) else (n : Int)
    let body : List Char :=
      if c0 = '-' then rest0 else if c0 = '+' then rest0 else c0 :: rest0
    let ip := body.takeWhile Char.isDigit
    let rest := body.dropWhile Char.isDigit
    match rest with
    | [] => if ip = [] then none else some ((signed (digitsToNat ip) : Int) : Rat)
    | '.' :: fp =>
      if fp.all Char.isDigit ∧ (ip ≠ [] ∨ fp ≠ []) then
        some (mkRat (signed (digitsToNat ip * 10 ^ fp.length + digitsToNat fp))
          (10 ^ fp.length))
      else none
    | _ => none

/-- Model of pandas to_numeric(x, errors=coerce) on a single cell:
numbers pass through, missing stays missing, strings are parsed and
become missing on parse failure. -/
def coerceVal : Val → Val
  | .num q => .num q
  | .na => .na
  | .str s =>
    match parseDecimal? s with
    | some q => .num q
    | none => .na

/-- The five numeric-candidate columns of the coercion loop
(source lines 223-225). -/
def numericCols : List Col :=
  [.view_count, .likes, .dislikes, .comment_count, .like_ratio]

/-- One iteration of the coercion loop: if the column is present,
replace it by its coerced cells (df[col] = pd.to_numeric(df[col])). -/
def coerceColumn (ds : Dataset) (c : Col) : Dataset :=
  if c ∈ ds.cols then
    { ds with rows := ds.rows.map (fun r => r.set c (coerceVal (r.get c))) }
  else ds

/-- The whole coercion loop over the five numeric-candidate columns. -/
def coerceDf (ds : Dataset) : Dataset :=
  numericCols.foldl coerceColumn ds

/-- The category filter of plot_image (source lines 208-211): the
all-categories sentinel keeps every row; otherwise rows whose
category_name cell equals the selector string are kept.  Indexing a
table that has no category_name column raises KeyError. -/
def filteredView (g : Dataset) (category : String) : Except PyErr Dataset :=
  if category = "__all__" then .ok g
  else if Col.category_name ∈ g.cols then
    .ok { g with rows := g.rows.filter (fun r => decide (r.category_name = Val.str category)) }
  else .error .keyError

/-- Rational addition written with kernel-reducible integer arithmetic;
proved equal to ordinary Rat addition below. -/
def ratAdd (a b : Rat) : Rat :=
  mkRat (a.num * (b.den : Int) + b.num * (a.den : Int)) (a.den * b.den)

/-- The numeric content of a cell, when it has one. -/
def numOf : Val → Option Rat
  | .num q => some q
  | _ => none

/-- Model of the pandas Series.sum used by the top_categories groupby
(source line 238): missing values are skipped, an empty column sums to
zero, and a column holding any string cell makes the whole render fail
(sns.barplot on non-numeric data raises, which the handler catches and
turns into an error placeholder; modelled as none). -/
def pandasColSum (vals : List Val) : Option Rat :=
  if vals.all (fun v => match v with | .str _ => false | _ => true) then
    some ((vals.filterMap numOf).foldr ratAdd 0)
  else none

/-- String cell content, when the cell is a string. -/
def strOf : Val → Option String
  | .str s => some s
  | _ => none

/-- ASCII lower-casing of one character, the character-level content of
str.lower(). -/
def lowerChar (c : Char) : Char :=
  if 65 ≤ c.toNat ∧ c.toNat ≤ 90 then Char.ofNat (c.toNat + 32) else c

/-- Model of name.lower().endswith(".csv") (source line 141). -/
def nameEndsWithCsv (s : String) : Bool :=
  ['.', 'c', 's', 'v'].isSuffixOf (s.toList.map lowerChar)

/-- Lexicographic code-point order on character lists, the order of the
Python sorted() builtin on strings. -/
def charListLe : List Char → List Char → Bool
  | [], _ => true
  | _ :: _, [] => false
  | a :: as, b :: bs => if a = b then charListLe as bs else decide (a < b)

/-- Lexicographic string order used when sorting category names. -/
def strLe (a b : String) : Bool := charListLe a.toList b.toList

/-- Group keys of DF.groupby(category_name): the distinct string cells,
in ascending order (pandas sorts group keys); missing keys are dropped. -/
def groupKeys (ds : Dataset) : List String :=
  List.insertionSort (fun a b => strLe a b = true)
    ((ds.rows.filterMap (fun r => strOf r.category_name)).dedup)

/-- The view_count cells of the rows in one category group. -/
def groupCells (ds : Dataset) (k : String) : List Val :=
  (ds.rows.filter (fun r => decide (r.category_name = Val.str k))).map
    (fun r => r.view_count)

/-- Descending order on summed groups, as used by
sort_values(ascending=False). -/
def sumDescRel (a b : String × Rat) : Prop := b.2 ≤ a.2

instance : DecidableRel sumDescRel := fun a b => inferInstanceAs (Decidable (b.2 ≤ a.2))

instance : IsTotal (String × Rat) sumDescRel := ⟨fun a b => le_total b.2 a.2⟩

instance : IsTrans (String × Rat) sumDescRel :=
  ⟨fun _ _ _ h h2 => le_trans h2 h⟩

/-- Failure-propagating map over a list, the Option-monad traversal
spelled out. -/
def optionsMap {α β : Type} (f : α → Option β) : List α → Option (List β)
  | [] => some []
  | a :: l =>
    match f a with
    | none => none
    | some b =>
      match optionsMap f l with
      | none => none
      | some bs => some (b :: bs)

/-- The top_categories aggregation (source line 238): group the raw,
uncoerced full table by category_name, sum view_count per group, sort
descending by the sum, keep the first ten.  A missing column or a
non-numeric sum raises inside the try block (modelled as none). -/
def topCategoriesCalc (ds : Dataset) : Option (List (String × Rat)) :=
  if Col.category_name ∈ ds.cols ∧ Col.view_count ∈ ds.cols then
    (optionsMap (fun k =>
        (pandasColSum (groupCells ds k)).map (fun q => (k, q))) (groupKeys ds)).map
      (fun l => (List.insertionSort sumDescRel l).take 10)
  else none

/-- Column extraction with missing cells dropped, as in
df[col].dropna() on an already-coerced column. -/
def numericCells (ds : Dataset) (c : Col) : List Rat :=
  ds.rows.filterMap (fun r => numOf (r.get c))

/-- The payload handed to the plotting collaborator: which numbers each
chart branch computes (visual styling belongs to matplotlib/seaborn and
stays outside the model). -/
inductive PlotPayload where
  | noData
  | histViews (vals : List Rat)
  | topBar (entries : List (String × Rat))
  | scatter (pts : List (Val × Val))
  | histRatio (vals : List Rat)
  | hourCounts (counts : List (Nat × Nat))
  | hourMissing
  | corrMatrix (cols : List Col)
  | unknown
  | errPlaceholder
deriving DecidableEq

/-- The reference to the image endpoint embedded by visualize
(url_for on source line 196). -/
structure PlotUrl where
  plot : String
  category : String
  sample : Int
deriving DecidableEq

/-- What a handler sends back: a PNG image built from a payload, a
plain-text body with an explicit status code, or the rendered index
page. -/
inductive Response where
  | image (p : PlotPayload)
  | textError (msg : String) (status : Nat)
  | htmlIndex (categories : List String) (selected : Option String)
      (plotUrl : Option PlotUrl) (title : Option String)
deriving DecidableEq

/-- Discriminator used when claims speak about response shape. -/
def Response.isTextError : Response → Bool
  | .textError _ _ => true
  | _ => false

/-- An HTTP request to one of the routes: the three query parameters,
each absent or a raw string. -/
structure Request where
  plot : Option String
  category : Option String
  sample : Option String
deriving DecidableEq

/-- Model of sample_size = int(request.args.get(sample, 5000))
(source lines 181 and 206): an absent parameter yields the int default
5000; a present parameter is converted by int() and raises ValueError
on a non-integer string. -/
def getSample (req : Request) : Except PyErr Int :=
  match req.sample with
  | none => .ok 5000
  | some s =>
    match pyInt? s with
    | some n => .ok n
    | none => .error .valueError

/-- The chart-kind dispatch inside the try block of plot_image (source
lines 230-279): each branch computes its payload from the coerced
filtered view df, except top_categories, which reads the raw full table;
any exception raised in a branch is caught and rendered as an error
placeholder (source lines 275-279). -/
def chartPayload (sampler : List Row → Nat → List Row) (fullDF df : Dataset)
    (plot_type : String) (sample_size : Int) : PlotPayload :=
  if plot_type = "views_dist" then
    if Col.view_count ∈ df.cols then .histViews (numericCells df .view_count)
    else .errPlaceholder
  else if plot_type = "top_categories" then
    match topCategoriesCalc fullDF with
    | some entries => .topBar entries
    | none => .errPlaceholder
  else if plot_type = "likes_vs_views" then
    let k : Int := min (df.rows.length : Int) sample_size
    if k < 0 then .errPlaceholder
    else if Col.view_count ∈ df.cols ∧ Col.likes ∈ df.cols then
      .scatter ((sampler df.rows k.toNat).map (fun r => (r.view_count, r.likes)))
    else .errPlaceholder
  else if plot_type = "like_ratio" then
    if Col.like_ratio ∈ df.cols then .histRatio (numericCells df .like_ratio)
    else .errPlaceholder
  else if plot_type = "publish_hour" then
    if Col.publish_hour ∈ df.cols then
      .hourCounts ((List.range 24).map (fun h =>
        (h, (df.rows.filter (fun r => decide (r.publish_hour = Val.num (h : Rat)))).length)))
    else .hourMissing
  else if plot_type = "corr" then
    .corrMatrix (numericCols.filter (fun c => decide (c ∈ df.cols)))
  else .unknown

/-- The plot_image handler (source lines 202-286).  The process-wide
table g is the state; the df.sample randomness is the sampler parameter
(it receives the rows and the sample count).  The int() conversion of
the sample parameter and the category indexing happen outside the try
block, so their exceptions escape the handler; everything after the
empty-view check answers with an image. -/
def plot_image (sampler : List Row → Nat → List Row) (g : Dataset)
    (req : Request) : Except PyErr Response × Dataset :=
  let plot_type := req.plot.getD "views_dist"
  let category := req.category.getD "__all__"
  match getSample req with
  | .error e => (.error e, g)
  | .ok sample_size =>
    match filteredView g category with
    | .error e => (.error e, g)
    | .ok df0 =>
      if df0.rows.isEmpty then (.ok (.image .noData), g)
      else
        (.ok (.image (chartPayload sampler g (coerceDf df0) plot_type sample_size)), g)

/-- The sorted distinct category names (source lines 173 and 198):
dropna, unique, then sorted(). -/
def categoryStrings (ds : Dataset) : List String :=
  List.insertionSort (fun a b => strLe a b = true)
    ((ds.rows.filterMap (fun r => strOf r.category_name)).dedup)

/-- The human-readable title computed by visualize
(source lines 186-194). -/
def titleFor (plot_type category : String) : String :=
  if plot_type = "views_dist" then
    "Views Distribution (" ++
      (if category = "__all__" then "All Categories" else category) ++ ")"
  else if plot_type = "top_categories" then "Top Categories by Total Views"
  else if plot_type = "likes_vs_views" then "Likes vs Views (" ++ category ++ ")"
  else if plot_type = "like_ratio" then "Like Ratio Distribution (" ++ category ++ ")"
  else if plot_type = "publish_hour" then "Uploads by Hour"
  else if plot_type = "corr" then "Engagement Correlation Heatmap"
  else "Visualization"

/-- The visualize handler (source lines 177-199): parameters are read
(int() may raise), an absent-or-empty table answers a plain-text 500,
otherwise the page is rendered with the category list (indexing a table
without category_name on source line 198 raises KeyError). -/
def visualize (g : Dataset) (req : Request) : Except PyErr Response × Dataset :=
  let category := req.category.getD "__all__"
  let plot_type := req.plot.getD "views_dist"
  match getSample req with
  | .error e => (.error e, g)
  | .ok sample_size =>
    if g.rows.isEmpty then
      (.ok (.textError "Dataframe not loaded or empty. Check server logs." 500), g)
    else
      if Col.category_name ∈ g.cols then
        (.ok (.htmlIndex (categoryStrings g) (some category)
          (some ⟨plot_type, category, sample_size⟩)
          (some (titleFor plot_type category))), g)
      else (.error .keyError, g)

/-- The index handler (source lines 169-174): the selection form with
the category list, empty when the column is absent. -/
def indexPage (g : Dataset) : Response × Dataset :=
  if Col.category_name ∈ g.cols then
    (.htmlIndex (categoryStrings g) none none none, g)
  else (.htmlIndex [] none none none, g)

/-- The character encodings the loader tries (source line 144). -/
inductive Enc where
  | utf8
  | utf8sig
  | latin1
  | cp1252
deriving DecidableEq

/-- File contents as a byte sequence. -/
def ByteSeq : Type := List Nat

instance : DecidableEq ByteSeq := inferInstanceAs (DecidableEq (List Nat))

/-- One member of a zip archive: its name and its decompressed bytes. -/
structure ZipEntry where
  name : String
  content : ByteSeq
deriving DecidableEq

/-- The external reading libraries at their call boundary: strict
pd.read_csv under a chosen encoding, the lenient latin1 read with
on_bad_lines=skip, and zipfile decompression (none models the raised
exception). -/
structure CsvReader where
  parseStrict : Enc → ByteSeq → Option Dataset
  parseLenient : ByteSeq → Option Dataset
  unzip : ByteSeq → Option (List ZipEntry)

/-- The encoding trial loop of the zip branch (source lines 144-150):
utf-8, utf-8-sig, latin1, cp1252 in order, rewinding between attempts,
then one lenient latin1 read that skips malformed rows.  A failure of
the final read escapes (source line 150 is outside any try). -/
def tryEncodings (rdr : CsvReader) (content : ByteSeq) : Except PyErr Dataset :=
  match rdr.parseStrict .utf8 content with
  | some d => .ok d
  | none =>
    match rdr.parseStrict .utf8sig content with
    | some d => .ok d
    | none =>
      match rdr.parseStrict .latin1 content with
      | some d => .ok d
      | none =>
        match rdr.parseStrict .cp1252 content with
        | some d => .ok d
        | none =>
          match rdr.parseLenient content with
          | some d => .ok d
          | none => .error .parseFail

/-- The load_data function (source lines 131-156): a missing path raises
FileNotFoundError; a file whose first two bytes are the zip signature PK
is opened as an archive (an invalid archive raises BadZipFile), the
first entry named *.csv — or the first entry at all — is parsed through
the encoding trials; any other file gets the default read and then the
lenient latin1 retry. -/
def load_data (rdr : CsvReader) (fs : String → Option ByteSeq)
    (filename : String) : Except PyErr Dataset :=
  match fs filename with
  | none => .error .fileNotFound
  | some bytes =>
    if bytes.take 2 = [80, 75] then
      match rdr.unzip bytes with
      | none => .error .badZip
      | some [] => .error .badZip
      | some (e0 :: rest) =>
        let target : ZipEntry :=
          match (e0 :: rest).filter (fun e => nameEndsWithCsv e.name) with
          | c :: _ => c
          | [] => e0
        tryEncodings rdr target.content
    else
      match rdr.parseStrict .utf8 bytes with
      | some d => .ok d
      | none =>
        match rdr.parseLenient bytes with
        | some d => .ok d
        | none => .error .parseFail

/-- The fixed dataset filename (source line 30). -/
def DATA_FILENAME : String := "new_IN_youtube_trending_data.csv"

/-- Model of Series.astype(str) on one cell: pandas renders integral
floats without a fractional part here because categoryId loads as an
integer column; NaN prints as nan. -/
def pyStr : Val → String
  | .num q => if q.den = 1 then toString q.num else toString q.num ++ "/" ++ toString q.den
  | .str s => s
  | .na => "nan"

/-- The category_name derivation after a successful load (source lines
162-163): when category_name is absent but categoryId is present, add
category_name as the string form of categoryId. -/
def deriveCategoryName (ds : Dataset) : Dataset :=
  if Col.category_name ∉ ds.cols ∧ Col.categoryId ∈ ds.cols then
    { cols := ds.cols ++ [Col.category_name],
      rows := ds.rows.map (fun r => r.set .category_name (.str (pyStr r.categoryId))) }
  else ds

/-- The startup block (source lines 160-166): load once, derive the
category column, and on any failure fall back to the empty table
pd.DataFrame(). -/
def startupDF (rdr : CsvReader) (fs : String → Option ByteSeq) : Dataset :=
  match load_data rdr fs DATA_FILENAME with
  | .ok d => deriveCategoryName d
  | .error _ => { cols := [], rows := [] }

/-- Encoding order written as the spec states it, for the refinement
check of the fallback chain. -/
def encOrder : List Enc := [.utf8, .utf8sig, .latin1, .cp1252]

/-- The fallback chain written from the words of the spec: first
success over the ordered encoding list, then the lenient tolerant
fallback. -/
def chainSpec (rdr : CsvReader) (content : ByteSeq) : Except PyErr Dataset :=
  match encOrder.findSome? (fun e => rdr.parseStrict e content) with
  | some d => .ok d
  | none =>
    match rdr.parseLenient content with
    | some d => .ok d
    | none => .error .parseFail

/-- The archive-entry selection written from the words of the spec:
the first entry whose name ends in the csv extension, else the first
entry of the archive. -/
def selectSpec (entries : List ZipEntry) : Option ZipEntry :=
  match entries.find? (fun e => nameEndsWithCsv e.name) with
  | some e => some e
  | none => entries.head?

/-- Zip loading written from the words of the spec, to compare with the
source translation. -/
def zipLoadSpec (rdr : CsvReader) (entries : List ZipEntry) : Except PyErr Dataset :=
  match selectSpec entries with
  | some t => chainSpec rdr t.content
  | none => .error .badZip

theorem ratAdd_eq_add (a b : Rat) : ratAdd a b = a + b := (Rat.add_def' a b).symm

theorem Row.get_set (r : Row) (c c2 : Col) (v : Val) :
    (r.set c v).get c2 = if c = c2 then v else r.get c2 := by
  cases c <;> cases c2 <;> simp [Row.set, Row.get]

theorem coerceVal_idem (v : Val) : coerceVal (coerceVal v) = coerceVal v := by
  cases v with
  | str s =>
    simp only [coerceVal]
    cases parseDecimal? s <;> simp
  | num q => rfl
  | na => rfl

/-- One per-row step of the coercion loop, with the column set fixed. -/
def rowCoerceStep (cols : List Col) (r : Row) (c : Col) : Row :=
  if c ∈ cols then r.set c (coerceVal (r.get c)) else r

/-- What the whole coercion loop does to a single row. -/
def rowCoerce (cols : List Col) (r : Row) : Row :=
  numericCols.foldl (rowCoerceStep cols) r

theorem coerceColumn_cols (ds : Dataset) (c : Col) :
    (coerceColumn ds c).cols = ds.cols := by
  unfold coerceColumn; split <;> rfl

theorem coerceColumn_rows (ds : Dataset) (c : Col) :
    (coerceColumn ds c).rows = ds.rows.map (fun r => rowCoerceStep ds.cols r c) := by
  unfold coerceColumn rowCoerceStep
  split
  · next h => simp [h]
  · next h => simp [h]

theorem foldl_coerceColumn_cols (L : List Col) (ds : Dataset) :
    (L.foldl coerceColumn ds).cols = ds.cols := by
  induction L generalizing ds with
  | nil => rfl
  | cons c L ih =>
    simp only [List.foldl_cons]
    rw [ih, coerceColumn_cols]

theorem foldl_coerceColumn_rows (L : List Col) (ds : Dataset) :
    (L.foldl coerceColumn ds).rows =
      ds.rows.map (fun r => L.foldl (rowCoerceStep ds.cols) r) := by
  induction L generalizing ds with
  | nil => simp
  | cons c L ih =>
    simp only [List.foldl_cons]
    rw [ih, coerceColumn_cols, coerceColumn_rows, List.map_map]
    rfl

theorem coerceDf_cols (ds : Dataset) : (coerceDf ds).cols = ds.cols :=
  foldl_coerceColumn_cols numericCols ds

theorem coerceDf_rows (ds : Dataset) :
    (coerceDf ds).rows = ds.rows.map (rowCoerce ds.cols) :=
  foldl_coerceColumn_rows numericCols ds

theorem foldl_rowCoerceStep_get (L : List Col) (cols : List Col) (r : Row) (c : Col) :
    (L.foldl (rowCoerceStep cols) r).get c =
      if c ∈ L ∧ c ∈ cols then coerceVal (r.get c) else r.get c := by
  induction L generalizing r with
  | nil => simp
  | cons a L ih =>
    simp only [List.foldl_cons]
    rw [ih]
    by_cases hac : c = a
    · subst hac
      by_cases hcc : c ∈ cols
      · simp only [rowCoerceStep, if_pos hcc, Row.get_set, if_pos rfl,
          List.mem_cons, true_or, true_and, if_pos hcc]
        split <;> simp [coerceVal_idem, hcc]
      · simp [rowCoerceStep, hcc, List.mem_cons]
    · have hga : (rowCoerceStep cols r a).get c = r.get c := by
        unfold rowCoerceStep
        split
        · rw [Row.get_set, if_neg (fun h => hac h.symm)]
        · rfl
      rw [hga]
      simp [List.mem_cons, hac]

theorem rowCoerce_get (cols : List Col) (r : Row) (c : Col) :
    (rowCoerce cols r).get c =
      if c ∈ numericCols ∧ c ∈ cols then coerceVal (r.get c) else r.get c :=
  foldl_rowCoerceStep_get numericCols cols r c

theorem plot_image_of_empty (sampler : List Row → Nat → List Row) (g : Dataset)
    (req : Request) (n : Int) (df0 : Dataset)
    (hs : getSample req = .ok n)
    (hf : filteredView g (req.category.getD "__all__") = .ok df0)
    (he : df0.rows = []) :
    plot_image sampler g req = (.ok (.image .noData), g) := by
  unfold plot_image
  rw [hs]
  dsimp only
  rw [hf]
  simp [he]

theorem plot_image_of_nonempty (sampler : List Row → Nat → List Row) (g : Dataset)
    (req : Request) (n : Int) (df0 : Dataset)
    (hs : getSample req = .ok n)
    (hf : filteredView g (req.category.getD "__all__") = .ok df0)
    (hne : df0.rows ≠ []) :
    plot_image sampler g req =
      (.ok (.image (chartPayload sampler g (coerceDf df0)
        (req.plot.getD "views_dist") n)), g) := by
  unfold plot_image
  rw [hs]
  dsimp only
  rw [hf]
  simp [List.isEmpty_iff, hne]

theorem head?_filter_eq_find? {α} (p : α → Bool) (l : List α) :
    (l.filter p).head? = l.find? p := by
  induction l with
  | nil => rfl
  | cons a l ih =>
    rw [List.filter_cons, List.find?_cons]
    cases hpa : p a
    · simp [hpa, ih]
    · simp [hpa]

theorem optionsMap_mem {α β : Type} (f : α → Option β) (l : List α) (res : List β)
    (h : optionsMap f l = some res) : ∀ b ∈ res, ∃ a, a ∈ l ∧ f a = some b := by
  induction l generalizing res with
  | nil =>
    simp only [optionsMap, Option.some.injEq] at h
    subst h
    simp
  | cons a l ih =>
    rw [optionsMap] at h
    cases hfa : f a with
    | none => rw [hfa] at h; simp at h
    | some b0 =>
      rw [hfa] at h
      cases hrest : optionsMap f l with
      | none => rw [hrest] at h; simp at h
      | some bs =>
        rw [hrest] at h
        simp only [Option.some.injEq] at h
        subst h
        intro b hb
        rcases List.mem_cons.mp hb with hb0 | hbs
        · exact ⟨a, List.mem_cons_self a l, hb0 ▸ hfa⟩
        · rcases ih bs hrest b hbs with ⟨x, hx, hfx⟩
          exact ⟨x, List.mem_cons_of_mem a hx, hfx⟩

/-- A deterministic stand-in for the df.sample randomness, used by the
concrete instances below. -/
def takeSampler : List Row → Nat → List Row := fun l k => l.take k

/-- A row with every cell missing. -/
def naRow : Row := ⟨.na, .na, .na, .na, .na, .na, .na, .na⟩

/-- A one-row table with a Music row, for concrete instances. -/
def dsMusic : Dataset :=
  { cols := [.category_name, .view_count],
    rows := [{ naRow with category_name := .str "Music", view_count := .num 1000 }] }

/-- C9: after startup no handler writes the process-wide table: index,
visualize and plot_image all hand back the dataset they were given, for
every request; filtering and coercion act on a request-local copy. -/
theorem c9_requests_leave_dataset_unchanged (sampler : List Row → Nat → List Row)
    (g : Dataset) (req : Request) :
    (indexPage g).2 = g ∧ (visualize g req).2 = g ∧ (plot_image sampler g req).2 = g := by
  refine ⟨?_, ?_, ?_⟩
  · unfold indexPage
    split <;> rfl
  · unfold visualize
    cases h : getSample req with
    | error e => rfl
    | ok n =>
      dsimp only
      split
      · rfl
      · split <;> rfl
  · unfold plot_image
    cases h : getSample req with
    | error e => rfl
    | ok n =>
      dsimp only
      cases h2 : filteredView g (req.category.getD "__all__") with
      | error e => rfl
      | ok df0 =>
        dsimp only
        split <;> rfl

/-- C10: a present sample parameter that is not a decimal integer string
makes int() raise ValueError before any chart computation, in both the
visualize and the plot_image handler: the request fails instead of
falling back to the default 5000. -/
theorem c10_bad_sample_param_raises (sampler : List Row → Nat → List Row)
    (g : Dataset) (req : Request) (s : String)
    (hs : req.sample = some s) (hp : pyInt? s = none) :
    plot_image sampler g req = (.error .valueError, g) ∧
    visualize g req = (.error .valueError, g) := by
  have hgs : getSample req = .error .valueError := by
    simp only [getSample, hs, hp]
  constructor
  · unfold plot_image
    rw [hgs]
  · unfold visualize
    rw [hgs]

/-- C10 witness: the concrete request sample=abc fails on both routes. -/
theorem c10_witness :
    plot_image takeSampler { cols := [], rows := [] } ⟨none, none, some "abc"⟩ =
      (.error .valueError, { cols := [], rows := [] }) ∧
    visualize { cols := [], rows := [] } ⟨none, none, some "abc"⟩ =
      (.error .valueError, { cols := [], rows := [] }) :=
  c10_bad_sample_param_raises takeSampler { cols := [], rows := [] }
    ⟨none, none, some "abc"⟩ "abc" rfl (by decide)

/-- C4: whenever the request-scoped filtered view has zero rows, the
plot_image handler answers the no-data placeholder image with a success
outcome, before any chart branch runs, for every chart kind string. -/
theorem c4_empty_filtered_view_yields_no_data (sampler : List Row → Nat → List Row)
    (g : Dataset) (req : Request) (n : Int) (df0 : Dataset)
    (hs : getSample req = .ok n)
    (hf : filteredView g (req.category.getD "__all__") = .ok df0)
    (he : df0.rows = []) :
    plot_image sampler g req = (.ok (.image .noData), g) :=
  plot_image_of_empty sampler g req n df0 hs hf he

/-- C4 witness: a selector matching zero rows of a non-empty table
yields the placeholder for the corr chart kind. -/
theorem c4_witness :
    plot_image takeSampler dsMusic ⟨some "corr", some "Gaming", none⟩ =
      (.ok (.image .noData), dsMusic) :=
  c4_empty_filtered_view_yields_no_data takeSampler dsMusic
    ⟨some "corr", some "Gaming", none⟩ 5000
    { cols := [.category_name, .view_count], rows := [] }
    (by decide) (by decide) rfl

/-- C5: the numeric coercion is cell-wise: the coerced table keeps one
row per input row (no row-level exclusion), the coerced cell at any
column depends only on the original cell at that same column, and the
per-column computation input (dropna of the column) is determined
row-by-row from that column alone — a coercion failure elsewhere in the
row cannot remove the row from another column's computation. -/
theorem c5_coercion_is_cellwise (ds : Dataset) (c : Col) :
    (coerceDf ds).rows = ds.rows.map (rowCoerce ds.cols) ∧
    (∀ r : Row, (rowCoerce ds.cols r).get c =
      if c ∈ numericCols ∧ c ∈ ds.cols then coerceVal (r.get c) else r.get c) ∧
    numericCells (coerceDf ds) c = ds.rows.filterMap (fun r =>
      numOf (if c ∈ numericCols ∧ c ∈ ds.cols then coerceVal (r.get c) else r.get c)) := by
  refine ⟨coerceDf_rows ds, fun r => rowCoerce_get ds.cols r c, ?_⟩
  unfold numericCells
  rw [coerceDf_rows, List.filterMap_map]
  congr 1
  funext r
  simp only [Function.comp]
  rw [rowCoerce_get]

/-- C6: load_data raises FileNotFoundError on a missing path, and the
startup block recovers from every load failure by substituting the
empty table with zero rows and zero columns. -/
theorem c6_load_failure_recovery :
    (∀ (rdr : CsvReader) (fs : String → Option ByteSeq) (p : String),
      fs p = none → load_data rdr fs p = .error .fileNotFound) ∧
    (∀ (rdr : CsvReader) (fs : String → Option ByteSeq) (e : PyErr),
      load_data rdr fs DATA_FILENAME = .error e →
        startupDF rdr fs = { cols := [], rows := [] }) := by
  constructor
  · intro rdr fs p h
    unfold load_data
    rw [h]
  · intro rdr fs e h
    unfold startupDF
    rw [h]

/-- A reading boundary on which every parse fails, for concrete
instances. -/
def emptyReader : CsvReader :=
  { parseStrict := fun _ _ => none, parseLenient := fun _ => none,
    unzip := fun _ => none }

/-- C6 witness: with no file present, load_data fails and startup falls
back to the empty table. -/
theorem c6_witness :
    load_data emptyReader (fun _ => none) "missing.csv" = .error .fileNotFound ∧
    startupDF emptyReader (fun _ => none) = { cols := [], rows := [] } :=
  ⟨c6_load_failure_recovery.1 emptyReader (fun _ => none) "missing.csv" rfl,
   c6_load_failure_recovery.2 emptyReader (fun _ => none) .fileNotFound
     (c6_load_failure_recovery.1 emptyReader (fun _ => none) DATA_FILENAME rfl)⟩

/-- C3 counterexample: on the empty dataset (the structural failure
case) the plot_image endpoint answers the no-data placeholder image
with a success outcome — not a plain-text error with a server-error
status code as the claim states. -/
theorem c3_counterexample :
    plot_image takeSampler { cols := [], rows := [] } ⟨none, none, none⟩ =
      (.ok (.image .noData), { cols := [], rows := [] }) ∧
    Response.isTextError (.image .noData) = false := by
  exact ⟨by decide, rfl⟩

/-- C3 (amended): on an absent-or-empty Dataset the plain-text 500 error
is produced by the visualize endpoint; the plot_image endpoint (with the
all-categories selector) answers the no-data placeholder image with a
success outcome instead. -/
theorem c3_empty_dataset_split_behaviour (sampler : List Row → Nat → List Row)
    (g : Dataset) (req : Request) (n : Int)
    (hs : getSample req = .ok n) (he : g.rows = []) (hc : req.category = none) :
    visualize g req =
      (.ok (.textError "Dataframe not loaded or empty. Check server logs." 500), g) ∧
    plot_image sampler g req = (.ok (.image .noData), g) := by
  constructor
  · unfold visualize
    rw [hs]
    dsimp only
    simp [he]
  · have hf : filteredView g (req.category.getD "__all__") = .ok g := by
      rw [hc]
      rfl
    exact plot_image_of_empty sampler g req n g hs hf he

/-- C3 witness: the amended behaviour at the concrete empty table. -/
theorem c3_witness :
    visualize { cols := [], rows := [] } ⟨none, none, none⟩ =
      (.ok (.textError "Dataframe not loaded or empty. Check server logs." 500),
        { cols := [], rows := [] }) ∧
    plot_image takeSampler { cols := [], rows := [] } ⟨none, none, none⟩ =
      (.ok (.image .noData), { cols := [], rows := [] }) :=
  c3_empty_dataset_split_behaviour takeSampler { cols := [], rows := [] }
    ⟨none, none, none⟩ 5000 rfl rfl rfl

/-- The clamp the claim asserts, written from the words of the spec:
values below 100 raised to 100, values above 50000 lowered to 50000. -/
def clampSpec (n : Int) : Int := max 100 (min n 50000)

/-- A category-A row with one view and two likes, for the scatter
instances. -/
def scatterRow : Row :=
  { naRow with category_name := .str "A", view_count := .num 1, likes := .num 2 }

/-- Two hundred identical scatter rows. -/
def ds200 : Dataset :=
  { cols := [.category_name, .view_count, .likes],
    rows := List.replicate 200 scatterRow }

/-- The likes_vs_views branch of the dispatch, as an equation. -/
theorem chartPayload_likes (sampler : List Row → Nat → List Row)
    (fullDF df : Dataset) (n : Int) :
    chartPayload sampler fullDF df "likes_vs_views" n =
      (if min (df.rows.length : Int) n < 0 then .errPlaceholder
       else if Col.view_count ∈ df.cols ∧ Col.likes ∈ df.cols then
         .scatter ((sampler df.rows (min (df.rows.length : Int) n).toNat).map
           (fun r => (r.view_count, r.likes)))
       else .errPlaceholder) := rfl

set_option maxRecDepth 16384 in
/-- C1 counterexample: requesting sample=10 against a 200-row view
draws exactly 10 scatter points; the spec's clamp would have required
100.  No server-side clamping into [100, 50000] happens. -/
theorem c1_counterexample :
    plot_image takeSampler ds200 ⟨some "likes_vs_views", none, some "10"⟩ =
      (.ok (.image (.scatter (List.replicate 10 (Val.num 1, Val.num 2)))), ds200) ∧
    clampSpec 10 = 100 ∧
    (List.replicate 10 ((Val.num 1, Val.num 2))).length ≠ 100 := by
  refine ⟨by decide, by decide, by decide⟩

/-- C1 (amended): the aggregation layer applies no clamp at all: for the
scatter chart the number of drawn points is exactly
min(filtered row count, requested sample) for every nonnegative
requested value, including values below 100 and above 50000. -/
theorem c1_sample_is_min_row_count_request (sampler : List Row → Nat → List Row)
    (g : Dataset) (req : Request) (n : Int) (df0 : Dataset)
    (hsampler : ∀ (l : List Row) (k : Nat), k ≤ l.length → (sampler l k).length = k)
    (hplot : req.plot = some "likes_vs_views")
    (hs : getSample req = .ok n) (hn : 0 ≤ n)
    (hf : filteredView g (req.category.getD "__all__") = .ok df0)
    (hne : df0.rows ≠ [])
    (hvc : Col.view_count ∈ df0.cols) (hlk : Col.likes ∈ df0.cols) :
    ∃ pts : List (Val × Val),
      plot_image sampler g req = (.ok (.image (.scatter pts)), g) ∧
      pts.length = min df0.rows.length n.toNat := by
  have hlen : (coerceDf df0).rows.length = df0.rows.length := by
    rw [coerceDf_rows]
    exact List.length_map _ _
  rw [plot_image_of_nonempty sampler g req n df0 hs hf hne, hplot]
  simp only [Option.getD]
  rw [chartPayload_likes]
  have hnonneg : ¬ min ((coerceDf df0).rows.length : Int) n < 0 := by
    rw [hlen]
    omega
  rw [if_neg hnonneg, coerceDf_cols, if_pos ⟨hvc, hlk⟩]
  refine ⟨_, rfl, ?_⟩
  rw [List.length_map]
  have hle : (min ((coerceDf df0).rows.length : Int) n).toNat ≤ (coerceDf df0).rows.length := by
    omega
  rw [hsampler _ _ hle, hlen]
  omega

/-- Three scatter rows, for the C1 witness. -/
def ds3 : Dataset :=
  { cols := [.category_name, .view_count, .likes],
    rows := List.replicate 3 scatterRow }

/-- C1 witness: requesting sample=2 over three rows draws
min(3, 2) = 2 points. -/
theorem c1_witness :
    ∃ pts : List (Val × Val),
      plot_image takeSampler ds3 ⟨some "likes_vs_views", none, some "2"⟩ =
        (.ok (.image (.scatter pts)), ds3) ∧
      pts.length = min ds3.rows.length (2 : Int).toNat :=
  c1_sample_is_min_row_count_request takeSampler ds3
    ⟨some "likes_vs_views", none, some "2"⟩ 2
    ds3
    (by
      intro l k h
      simp [takeSampler, List.length_take]
      omega)
    rfl (by decide) (by decide) (by decide) (by decide) (by decide) (by decide)

/-- The top_categories branch of the dispatch, as an equation. -/
theorem chartPayload_top (sampler : List Row → Nat → List Row)
    (fullDF df : Dataset) (n : Int) :
    chartPayload sampler fullDF df "top_categories" n =
      (match topCategoriesCalc fullDF with
       | some entries => .topBar entries
       | none => .errPlaceholder) := rfl

/-- The dataset of the spec scenario: two Music rows with 1000 and 2000
views and one Gaming row with 500 views. -/
def dsTop : Dataset :=
  { cols := [.category_name, .view_count, .likes],
    rows :=
      [{ naRow with category_name := .str "Music", view_count := .num 1000, likes := .num 50 },
       { naRow with category_name := .str "Music", view_count := .num 2000, likes := .num 100 },
       { naRow with category_name := .str "Gaming", view_count := .num 500, likes := .num 10 }] }

/-- C2 counterexample: with a category selector matching zero rows the
top_categories request answers the no-data placeholder — the category
filter is not ignored in that case, even though the full-dataset
aggregation ([Music:3000, Gaming:500]) exists and is non-empty. -/
theorem c2_counterexample :
    plot_image takeSampler dsTop ⟨some "top_categories", some "Comedy", none⟩ =
      (.ok (.image .noData), dsTop) ∧
    topCategoriesCalc dsTop = some [("Music", 3000), ("Gaming", 500)] ∧
    PlotPayload.noData ≠ .topBar [("Music", 3000), ("Gaming", 500)] := by
  refine ⟨by decide, by decide, by decide⟩

/-- C2 (amended): when the filtered view is non-empty, the
top_categories chart ignores the category selector and aggregates over
the raw full Dataset: view_count summed by category_name, sorted
descending by the sum, at most 10 entries, each entry being one group's
sum. -/
theorem c2_top_categories_full_dataset (sampler : List Row → Nat → List Row)
    (g : Dataset) (req : Request) (n : Int) (df0 : Dataset) (l : List (String × Rat))
    (hplot : req.plot = some "top_categories")
    (hs : getSample req = .ok n)
    (hf : filteredView g (req.category.getD "__all__") = .ok df0)
    (hne : df0.rows ≠ [])
    (hcalc : topCategoriesCalc g = some l) :
    plot_image sampler g req = (.ok (.image (.topBar l)), g) ∧
    l.length ≤ 10 ∧
    List.Sorted sumDescRel l ∧
    ∀ p ∈ l, p.1 ∈ groupKeys g ∧ pandasColSum (groupCells g p.1) = some p.2 := by
  have hc0 := hcalc
  rw [topCategoriesCalc] at hcalc
  split at hcalc
  case isFalse => simp at hcalc
  case isTrue hcols =>
    obtain ⟨l0, hl0, hl⟩ := Option.map_eq_some'.mp hcalc
    refine ⟨?_, ?_, ?_, ?_⟩
    · rw [plot_image_of_nonempty sampler g req n df0 hs hf hne, hplot]
      simp only [Option.getD]
      rw [chartPayload_top, hc0]
    · rw [← hl]
      simp [List.length_take]
    · rw [← hl]
      exact List.Pairwise.sublist (List.take_sublist _ _)
        (List.sorted_insertionSort sumDescRel l0)
    · intro p hp
      rw [← hl] at hp
      have hp2 : p ∈ List.insertionSort sumDescRel l0 := List.take_subset _ _ hp
      have hp3 : p ∈ l0 := (List.perm_insertionSort sumDescRel l0).mem_iff.mp hp2
      obtain ⟨k, hk, hfk⟩ := optionsMap_mem _ _ l0 hl0 p hp3
      obtain ⟨q, hsum, hkq⟩ := Option.map_eq_some'.mp hfk
      rw [← hkq]
      exact ⟨hk, hsum⟩

/-- C2 witness: with the all-categories selector over the scenario
dataset, the response is the ranked bar payload [Music:3000,
Gaming:500], sorted and within ten entries. -/
theorem c2_witness :
    plot_image takeSampler dsTop ⟨some "top_categories", none, none⟩ =
      (.ok (.image (.topBar [("Music", 3000), ("Gaming", 500)])), dsTop) ∧
    ([("Music", (3000 : Rat)), ("Gaming", 500)]).length ≤ 10 ∧
    List.Sorted sumDescRel [("Music", 3000), ("Gaming", 500)] ∧
    ∀ p ∈ [("Music", (3000 : Rat)), ("Gaming", 500)],
      p.1 ∈ groupKeys dsTop ∧ pandasColSum (groupCells dsTop p.1) = some p.2 :=
  c2_top_categories_full_dataset takeSampler dsTop
    ⟨some "top_categories", none, none⟩ 5000 dsTop
    [("Music", 3000), ("Gaming", 500)]
    rfl rfl (by decide) (by decide) (by decide)

theorem tryEncodings_eq_chainSpec (rdr : CsvReader) (b : ByteSeq) :
    tryEncodings rdr b = chainSpec rdr b := by
  unfold tryEncodings chainSpec encOrder
  simp only [List.findSome?_cons, List.findSome?_nil]
  cases rdr.parseStrict Enc.utf8 b <;>
    cases rdr.parseStrict Enc.utf8sig b <;>
      cases rdr.parseStrict Enc.latin1 b <;>
        cases rdr.parseStrict Enc.cp1252 b <;>
          cases rdr.parseLenient b <;> rfl

theorem select_source_eq_spec (e0 : ZipEntry) (rest : List ZipEntry) :
    (match (e0 :: rest).filter (fun e => nameEndsWithCsv e.name) with
      | c :: _ => c
      | [] => e0) =
      (match selectSpec (e0 :: rest) with
       | some t => t
       | none => e0) := by
  unfold selectSpec
  rw [← head?_filter_eq_find?]
  cases (e0 :: rest).filter (fun e => nameEndsWithCsv e.name) with
  | nil => rfl
  | cons c cs => rfl

theorem selectSpec_cons_some (e0 : ZipEntry) (rest : List ZipEntry) :
    ∃ t, selectSpec (e0 :: rest) = some t := by
  unfold selectSpec
  cases (e0 :: rest).find? (fun e => nameEndsWithCsv e.name) with
  | some e => exact ⟨e, rfl⟩
  | none => exact ⟨e0, rfl⟩

/-- C8: on a zip-signature file the loader selects the first archive
entry named *.csv — or the first entry when none matches — and runs the
spec's fallback chain on its bytes: the strict encodings utf-8,
utf-8-sig, latin1, cp1252 in order, then one lenient malformed-row-
skipping latin1 read. -/
theorem c8_zip_branch_follows_spec (rdr : CsvReader) (fs : String → Option ByteSeq)
    (fn : String) (bytes : ByteSeq) (entries : List ZipEntry)
    (hb : fs fn = some bytes) (hsig : bytes.take 2 = [80, 75])
    (hz : rdr.unzip bytes = some entries) (hne : entries ≠ []) :
    load_data rdr fs fn = zipLoadSpec rdr entries := by
  unfold load_data
  rw [hb]
  dsimp only
  rw [if_pos hsig, hz]
  cases entries with
  | nil => exact absurd rfl hne
  | cons e0 rest =>
    dsimp only
    obtain ⟨t, ht⟩ := selectSpec_cons_some e0 rest
    unfold zipLoadSpec
    rw [ht]
    have hsel := select_source_eq_spec e0 rest
    rw [ht] at hsel
    rw [hsel, tryEncodings_eq_chainSpec]

/-- A zip archive byte stand-in starting with the PK signature. -/
def zipBytesPk : ByteSeq := [80, 75, 3, 4]

/-- A reading boundary whose archive opener knows the one concrete
archive, for the C8 witness. -/
def zipReaderW : CsvReader :=
  { parseStrict := fun _ _ => none, parseLenient := fun _ => none,
    unzip := fun b =>
      if b = zipBytesPk then some [⟨"data.csv", [65]⟩] else none }

/-- C8 witness: the concrete one-entry archive goes through the spec
chain on the entry bytes. -/
theorem c8_witness :
    load_data zipReaderW
      (fun nm => if nm = "a.zip" then some zipBytesPk else none)
      "a.zip" =
      zipLoadSpec zipReaderW [⟨"data.csv", [65]⟩] :=
  c8_zip_branch_follows_spec zipReaderW
    (fun nm => if nm = "a.zip" then some zipBytesPk else none)
    "a.zip" zipBytesPk [⟨"data.csv", [65]⟩]
    (by decide) (by decide) (by decide) (by decide)

/-- The utf-8 bytes of the delimited text: header line PK,x and data
line 1,2 — a well-formed CSV that happens to begin with the zip
signature characters. -/
def pkCsvBytes : ByteSeq := [80, 75, 44, 120, 10, 49, 44, 50, 10]

/-- The table that text parses to (its two columns PK and x lie outside
the modelled column universe, so only the row count is represented). -/
def pkParsed : Dataset := { cols := [], rows := [naRow] }

/-- A reading boundary that parses the PK-prefixed CSV under utf-8,
knows the one real archive, and treats the raw CSV bytes as an invalid
archive, as zipfile does. -/
def rdrPk : CsvReader :=
  { parseStrict := fun e b =>
      if e = .utf8 ∧ b = pkCsvBytes then some pkParsed else none,
    parseLenient := fun _ => none,
    unzip := fun b =>
      if b = zipBytesPk then some [⟨"data.csv", pkCsvBytes⟩] else none }

/-- The two files on disk: the archive holding the CSV, and the same
CSV unzipped. -/
def fsPk : String → Option ByteSeq :=
  fun nm =>
    if nm = "archive.zip" then some zipBytesPk
    else if nm = "direct.csv" then some pkCsvBytes else none

/-- C7 counterexample: the delimited file PK,x / 1,2 loads fine from
inside a zip archive but raises BadZipFile when loaded directly,
because its first two bytes trip the zip signature sniff — so the two
loads are not structurally identical for every delimited file. -/
theorem c7_counterexample :
    load_data rdrPk fsPk "archive.zip" = .ok pkParsed ∧
    load_data rdrPk fsPk "direct.csv" = .error .badZip ∧
    (Except.ok pkParsed : Except PyErr Dataset) ≠ .error .badZip := by
  refine ⟨by decide, by decide, by decide⟩

/-- C7 (amended): for a delimited file that does not begin with the PK
signature, loading a single-entry zip of it and loading it directly
give the same result, granted the facts about the real parsers: a
utf-8 failure forces a utf-8-sig failure, a strict latin1 success is
reproduced by the lenient latin1 read, and a strict latin1 failure
(which can only be structural, as latin1 decodes every byte) forces a
cp1252 failure. -/
theorem c7_zip_vs_direct_load (rdr : CsvReader) (fbytes zbytes : ByteSeq)
    (fsZ fsD : String → Option ByteSeq) (nameZ nameD ename : String)
    (hsig : ∀ b, rdr.parseStrict .utf8 b = none → rdr.parseStrict .utf8sig b = none)
    (hlat : ∀ b d, rdr.parseStrict .latin1 b = some d → rdr.parseLenient b = some d)
    (hcp : ∀ b, rdr.parseStrict .latin1 b = none → rdr.parseStrict .cp1252 b = none)
    (hz : fsZ nameZ = some zbytes) (hd : fsD nameD = some fbytes)
    (hzsig : zbytes.take 2 = [80, 75])
    (hunzip : rdr.unzip zbytes = some [⟨ename, fbytes⟩])
    (hfsig : fbytes.take 2 ≠ [80, 75]) :
    load_data rdr fsZ nameZ = load_data rdr fsD nameD := by
  have hzip : load_data rdr fsZ nameZ = tryEncodings rdr fbytes := by
    unfold load_data
    rw [hz]
    dsimp only
    rw [if_pos hzsig, hunzip]
    dsimp only
    cases hcsv : nameEndsWithCsv ename <;> simp [List.filter_cons, hcsv]
  have hdir : load_data rdr fsD nameD =
      (match rdr.parseStrict .utf8 fbytes with
       | some d => Except.ok d
       | none =>
         match rdr.parseLenient fbytes with
         | some d => Except.ok d
         | none => Except.error .parseFail) := by
    unfold load_data
    rw [hd]
    dsimp only
    rw [if_neg hfsig]
  rw [hzip, hdir]
  unfold tryEncodings
  cases h1 : rdr.parseStrict .utf8 fbytes with
  | some d => rfl
  | none =>
    rw [hsig _ h1]
    cases h3 : rdr.parseStrict .latin1 fbytes with
    | some d => rw [hlat _ _ h3]
    | none => rw [hcp _ h3]

/-- A reading boundary on which every strict parse fails and the
lenient read succeeds, for the C7 witness. -/
def plainReaderW : CsvReader :=
  { parseStrict := fun _ _ => none,
    parseLenient := fun _ => some pkParsed,
    unzip := fun b =>
      if b = zipBytesPk then some [⟨"data.csv", [65]⟩] else none }

/-- The two witness files: a one-entry archive and the entry itself. -/
def fsW : String → Option ByteSeq :=
  fun nm =>
    if nm = "a.zip" then some zipBytesPk
    else if nm = "f.csv" then some [65] else none

/-- C7 witness: a concrete non-PK file loads identically zipped and
unzipped. -/
theorem c7_witness :
    load_data plainReaderW fsW "a.zip" = load_data plainReaderW fsW "f.csv" :=
  c7_zip_vs_direct_load plainReaderW [65] zipBytesPk fsW fsW "a.zip" "f.csv" "data.csv"
    (fun _ _ => rfl) (fun _ _ h => Option.noConfusion h) (fun _ _ => rfl)
    (by decide) (by decide) (by decide) (by decide) (by decide)

theorem foldr_ratAdd_eq_sum (l : List Rat) : l.foldr ratAdd 0 = l.sum := by
  induction l with
  | nil => rfl
  | cons a l ih => simp [List.foldr_cons, ratAdd_eq_add, ih, List.sum_cons]

theorem pandasColSum_eq_sum (vals : List Val) (q : Rat)
    (h : pandasColSum vals = some q) : q = (vals.filterMap numOf).sum := by
  unfold pandasColSum at h
  split at h
  · have h2 := Option.some.inj h
    rw [← h2, foldr_ratAdd_eq_sum]
  · exact absurd h (by simp)
